import Mathlib

/-
Shallow embedding of `src/worldbank/api.py` (a Python client for the World
Bank Open Data REST API) and proofs about the claims of the specification.

Modelling conventions:
  * Decoded JSON values are the inductive `JValue`; `JValue.null` is Python
    `None` (the JSON decoder maps `null` to `None`, so "absent with default
    None" and "present but null" coincide, exactly as in the Python code).
  * Python exceptions are the error side of `Except PyErr`.
  * Python dicts are ordered association lists (CPython dicts preserve
    insertion order; the code never builds duplicate keys).
  * `str.encode('ascii', 'ignore')` keeps the ASCII characters of the
    string; the resulting bytes object is modelled as the filtered string.
  * Python floats are modelled as `Rat`; `float(...)` parsing is modelled
    for plain decimal literals (sign, digits, optional fraction), the only
    shapes the API's numeric fields take.  `str()` of a float is
    approximated and never exercised by the claims.
  * The HTTP layer is a pure function `String -> JValue` from the final URL
    to the decoded JSON body, together with a count of requests issued.
    The memoization cache of `memoize` is threaded explicitly in `St`.
-/

namespace WorldBank

/-- A decoded JSON value, as produced by `json.loads`. -/
inductive JValue where
  | null
  | bool (b : Bool)
  | int (n : Int)
  | float (q : Rat)
  | str (s : String)
  | arr (elems : List JValue)
  | obj (fields : List (String × JValue))

/-- The Python exceptions the mapped code can raise. -/
inductive PyErr where
  | keyError (key : String)
  | typeError
  | attributeError
  | valueError
  | indexError
deriving DecidableEq, Repr

/-- First binding of `key` in an ordered dict. -/
def jLookup (fields : List (String × JValue)) (key : String) : Option JValue :=
  (fields.find? (fun p => p.1 == key)).map (fun p => p.2)

/-- `data[key]`: KeyError when the key is absent, TypeError when `data` is
not a dict (in particular `None[key]`). -/
def JValue.getItem : JValue → String → Except PyErr JValue
  | .obj fields, key =>
      match jLookup fields key with
      | some v => .ok v
      | none => .error (.keyError key)
  | _, _ => .error .typeError

/-- `data.get(key, dflt)`: AttributeError when `data` is not a dict. -/
def JValue.getD : JValue → String → JValue → Except PyErr JValue
  | .obj fields, key, dflt => .ok ((jLookup fields key).getD dflt)
  | _, _, _ => .error .attributeError

/-- Python truthiness of a decoded JSON value. -/
def JValue.truthy : JValue → Bool
  | .null => false
  | .bool b => b
  | .int n => n != 0
  | .float q => q != 0
  | .str s => s != ""
  | .arr elems => !elems.isEmpty
  | .obj fields => !fields.isEmpty

/-- Python `str()` of the values that reach `'%s' % x` / `urlencode` in this
code: `None`, booleans, ints and strings.  Containers and floats never do;
their rendering here is a placeholder. -/
def pyStr : JValue → String
  | .null => "None"
  | .bool true => "True"
  | .bool false => "False"
  | .int n => toString n
  | .float q => toString q
  | .str s => s
  | .arr _ => "<list>"
  | .obj _ => "<dict>"

/-- `x.encode('ascii', 'ignore')`: only strings have `.encode`; the bytes
result is modelled as the ASCII-filtered string. -/
def pyEncodeAscii : JValue → Except PyErr String
  | .str s => .ok (String.mk (s.toList.filter (fun c => c.toNat < 128)))
  | _ => .error .attributeError

def digitsOnly (s : String) : Bool := s.toList.all Char.isDigit

def digitsVal (s : String) : Nat :=
  s.toList.foldl (fun a c => 10 * a + (c.toNat - 48)) 0

/-- Unsigned decimal literal accepted by CPython `float`: `d+`, `d+.d*` or
`.d+`. -/
def parseUnsignedFloat (s : String) : Option Rat :=
  match s.splitOn "." with
  | [w] => if w != "" && digitsOnly w then some ((digitsVal w : Nat) : Rat) else none
  | [w, f] =>
      if (w != "" || f != "") && digitsOnly w && digitsOnly f then
        some ((digitsVal w : Rat) + (digitsVal f : Rat) / ((10 : Rat) ^ f.length))
      else none
  | _ => none

def parsePyFloat (s : String) : Option Rat :=
  if s.startsWith "-" then (parseUnsignedFloat (s.drop 1)).map Neg.neg
  else if s.startsWith "+" then parseUnsignedFloat (s.drop 1)
  else parseUnsignedFloat s

/-- Python `float(x)`: numbers and booleans convert, strings parse or raise
ValueError, everything else (None, containers) raises TypeError. -/
def pyFloat : JValue → Except PyErr Rat
  | .int n => .ok (n : Rat)
  | .float q => .ok q
  | .bool b => .ok (if b then 1 else 0)
  | .str s =>
      match parsePyFloat s with
      | some q => .ok q
      | none => .error .valueError
  | _ => .error .typeError

def hexUpper (n : Nat) : Char :=
  if n < 10 then Char.ofNat (48 + n) else Char.ofNat (55 + n)

/-- UTF-8 encoding of a code point, as `urllib.parse.quote` performs before
percent-escaping. -/
def utf8Bytes (n : Nat) : List Nat :=
  if n < 128 then [n]
  else if n < 2048 then [192 + n / 64, 128 + n % 64]
  else if n < 65536 then [224 + n / 4096, 128 + n / 64 % 64, 128 + n % 64]
  else [240 + n / 262144, 128 + n / 4096 % 64, 128 + n / 64 % 64, 128 + n % 64]

/-- `urllib.parse.quote_plus`: ASCII letters, digits and `_.-~` pass
through, a space becomes `+`, every other character is percent-escaped
byte by byte with uppercase hex. -/
def quote_plus (s : String) : String :=
  String.join (s.toList.map (fun c =>
    if c.isAlphanum || c = '_' || c = '.' || c = '-' || c = '~' then String.singleton c
    else if c = ' ' then "+"
    else String.join ((utf8Bytes c.toNat).map
      (fun b => String.mk ['%', hexUpper (b / 16), hexUpper (b % 16)]))))

/-- `d.setdefault(key, v)`: unchanged when the key is present, otherwise the
pair is appended (CPython dicts append new keys at the end). -/
def pySetdefault (d : List (String × JValue)) (key : String) (v : JValue) :
    List (String × JValue) :=
  if (d.find? (fun p => p.1 == key)).isSome then d else d ++ [(key, v)]

/-- `d.pop(key, None)`, restricted to its effect on the dict. -/
def popKey (d : List (String × JValue)) (key : String) : List (String × JValue) :=
  d.filter (fun p => p.1 != key)

/-- The parameter dict as `_request` sends it: the `parameters.setdefault(
'format', 'json')` line of `_request`. -/
def requestParameters (parameters : List (String × JValue)) : List (String × JValue) :=
  pySetdefault parameters "format" (JValue.str "json")

/-- One `key=value` pair of `urllib.parse.urlencode`: `quote_plus(str(k))`
and `quote_plus(str(v))`. -/
def encodePair (p : String × JValue) : String × String :=
  (quote_plus p.1, quote_plus (pyStr p.2))

/-- The encoded query pairs the URL of `_request` carries. -/
def requestQueryPairs (parameters : List (String × JValue)) : List (String × String) :=
  (requestParameters parameters).map encodePair

/-- `urllib.parse.urlencode` applied to the (already defaulted) parameters. -/
def urlencode (parameters : List (String × JValue)) : String :=
  String.intercalate "&" ((parameters.map encodePair).map (fun p => p.1 ++ "=" ++ p.2))

/-- `_request`: defaults `format=json`, builds the final URL, performs one
GET (counted) and returns the decoded JSON body.  `server` stands for the
network: final URL to decoded response body. -/
def _request (server : String → JValue) (url : String)
    (parameters : List (String × JValue)) (requests : Nat) : JValue × Nat :=
  let ps := requestParameters parameters
  let query := urlencode ps
  let full := if query == "" then url else url ++ "?" ++ query
  (server full, requests + 1)

def domain : String := "https://api.worldbank.org/v2"

/-- `Source` (api.py lines 68-116).  Fields hold what the Python attributes
hold; `name` is the bytes result of `.encode('ascii', 'ignore')`. -/
structure Source where
  id : JValue
  code : JValue
  name : String
  description : JValue
  url : JValue
  concepts : JValue
  data_availability : JValue
  metadata_availability : JValue

/-- `Source.from_api`. -/
def Source.from_api (data : JValue) : Except PyErr Source := do
  let source_id ← data.getItem "id"
  let code ← data.getD "code" .null
  let nameDefault ← data.getD "name" .null
  let name0 ← data.getD "value" nameDefault
  let name ← pyEncodeAscii name0
  let description ← data.getD "description" .null
  let url ← data.getD "url" .null
  let concepts ← data.getD "concepts" .null
  let data_availability ← data.getD "dataavailability" .null
  let metadata_availability ← data.getD "metadataavailability" .null
  return ⟨source_id, code, name, description, url, concepts, data_availability,
    metadata_availability⟩

/-- `IncomeLevel` (api.py lines 134-164). -/
structure IncomeLevel where
  id : JValue
  name : JValue
  iso2code : JValue

/-- `IncomeLevel.from_api`: note that `value` and `iso2code` are read with
plain subscripting, exactly like `id`. -/
def IncomeLevel.from_api (data : JValue) : Except PyErr IncomeLevel := do
  let income_level_id ← data.getItem "id"
  let name ← data.getItem "value"
  let iso2code ← data.getItem "iso2code"
  return ⟨income_level_id, name, iso2code⟩

/-- `LendingType` (api.py lines 182-213). -/
structure LendingType where
  id : JValue
  name : JValue
  iso2code : JValue

/-- `LendingType.from_api`. -/
def LendingType.from_api (data : JValue) : Except PyErr LendingType := do
  let lending_type_id ← data.getItem "id"
  let name ← data.getItem "value"
  let iso2code ← data.getItem "iso2code"
  return ⟨lending_type_id, name, iso2code⟩

/-- `Topic` (api.py lines 628-660); declared after `Indicator` in the
source but needed by it. -/
structure Topic where
  id : JValue
  value : JValue
  note : JValue

/-- `Topic.from_api`. -/
def Topic.from_api (data : JValue) : Except PyErr Topic := do
  let topic_id ← data.getItem "id"
  let value ← data.getItem "value"
  let note ← data.getD "sourceNote" .null
  return ⟨topic_id, value, note⟩

/-- `Region` (api.py lines 343-375). -/
structure Region where
  id : JValue
  code : JValue
  name : JValue

/-- `Region.from_api`. -/
def Region.from_api (data : JValue) : Except PyErr Region := do
  let id ← data.getItem "id"
  let code ← data.getItem "iso2code"
  let name ← data.getItem "value"
  return ⟨id, code, name⟩

/-- `AdminRegion` (api.py lines 378-389): same fields as `Region`, distinct
tag, inherits `Region.from_api`. -/
structure AdminRegion where
  id : JValue
  code : JValue
  name : JValue

/-- `AdminRegion.from_api` is the inherited `Region.from_api`. -/
def AdminRegion.from_api (data : JValue) : Except PyErr AdminRegion := do
  let id ← data.getItem "id"
  let code ← data.getItem "iso2code"
  let name ← data.getItem "value"
  return ⟨id, code, name⟩

/-- `City` (api.py lines 392-425). -/
structure City where
  name : JValue
  latitude : JValue
  longitude : JValue

/-- `'id' not in item` for the topics loop of `Indicator.from_api`:
membership tests keys on a dict, raises TypeError otherwise (non-dict,
non-container items never occur in the topics payload). -/
def hasId : JValue → Bool
  | .obj fields => (jLookup fields "id").isSome
  | _ => false

def isObj : JValue → Bool
  | .obj _ => true
  | _ => false

/-- `Indicator` (api.py lines 231-282). -/
structure Indicator where
  id : JValue
  name : String
  source : Source
  topics : List Topic
  source_note : JValue
  source_organization : String
  unit : JValue

/-- The topics loop of `Indicator.from_api`: skip items without an `id`
key, map the rest with `Topic.from_api` in order. -/
def mapTopics : List JValue → Except PyErr (List Topic)
  | [] => .ok []
  | item :: rest =>
      match item with
      | .obj fields =>
          if (jLookup fields "id").isSome then do
            let topic ← Topic.from_api item
            let topics ← mapTopics rest
            return topic :: topics
          else mapTopics rest
      | _ => .error .typeError

/-- `for item in topic_data`: iterating a non-list raises. -/
def mapTopicsJ : JValue → Except PyErr (List Topic)
  | .arr items => mapTopics items
  | _ => .error .typeError

/-- `Indicator.from_api`, in source order: `id`, `name` (encoded), the
`source`/`topics`/`sourceNote`/`sourceOrganization` lookups, `unit`, then
`Source.from_api` and the topics loop. -/
def Indicator.from_api (data : JValue) : Except PyErr Indicator := do
  let indicator_id ← data.getItem "id"
  let rawName ← data.getItem "name"
  let name ← pyEncodeAscii rawName
  let source_data ← data.getD "source" .null
  let topic_data ← data.getD "topics" (.arr [])
  let source_note ← data.getD "sourceNote" .null
  let rawOrg ← data.getD "sourceOrganization" .null
  let source_organization ← pyEncodeAscii rawOrg
  let unit ← data.getItem "unit"
  let source ← Source.from_api source_data
  let topics ← mapTopicsJ topic_data
  return ⟨indicator_id, name, source, topics, source_note, source_organization, unit⟩

/-- `Country` (api.py lines 428-482). -/
structure Country where
  id : JValue
  name : JValue
  iso_code : JValue
  region : Region
  admin_region : AdminRegion
  income_level : IncomeLevel
  lending_type : LendingType
  capital : City

/-- `Country.from_api`: the nested payloads are fetched with
`data.get(..., None)` and then unconditionally passed to the nested
`from_api`, which subscripts them. -/
def Country.from_api (data : JValue) : Except PyErr Country := do
  let country_id ← data.getItem "id"
  let name ← data.getItem "name"
  let iso_code ← data.getD "iso2Code" .null
  let region_data ← data.getD "region" .null
  let admin_region_data ← data.getD "adminregion" .null
  let income_level_data ← data.getD "incomeLevel" .null
  let lending_type_data ← data.getD "lendingType" .null
  let capital_city ← data.getD "capitalCity" .null
  let latitude ← data.getD "latitude" .null
  let longitude ← data.getD "longitude" .null
  let region ← Region.from_api region_data
  let admin_region ← AdminRegion.from_api admin_region_data
  let income_level ← IncomeLevel.from_api income_level_data
  let lending_type ← LendingType.from_api lending_type_data
  let capital : City := ⟨capital_city, latitude, longitude⟩
  return ⟨country_id, name, iso_code, region, admin_region, income_level,
    lending_type, capital⟩

/-- `Catalog` (api.py lines 678-706). -/
structure Catalog where
  id : JValue
  metatypes : JValue

/-- `Catalog.from_api`: `metatype` is read with plain subscripting. -/
def Catalog.from_api (data : JValue) : Except PyErr Catalog := do
  let catalog_id ← data.getItem "id"
  let metatypes ← data.getItem "metatype"
  return ⟨catalog_id, metatypes⟩

mutual

/-- Injective serialization of a `JValue`; together with `memoKey` it stands
for the `str(args) + str(kwargs)` cache key of `memoize`. -/
def jkey : JValue → String
  | .null => "N"
  | .bool b => if b then "T" else "F"
  | .int n => "I" ++ toString n
  | .float q => "Q" ++ toString q
  | .str s => "S" ++ s
  | .arr elems => "A(" ++ jkeyList elems ++ ")"
  | .obj fields => "O(" ++ jkeyFields fields ++ ")"

def jkeyList : List JValue → String
  | [] => ""
  | v :: rest => jkey v ++ ";" ++ jkeyList rest

def jkeyFields : List (String × JValue) → String
  | [] => ""
  | p :: rest => p.1 ++ ":" ++ jkey p.2 ++ ";" ++ jkeyFields rest

end

/-- The `key = str(args) + str(kwargs)` line of `memoize`, for the one
memoized function `Indicator.get`. -/
def memoKey (indicator : JValue) (kwargs : List (String × JValue)) : String :=
  "(" ++ jkey indicator ++ ")(" ++ jkeyFields kwargs ++ ")"

/-- The network: final URL to decoded JSON response body. -/
structure Net where
  server : String → JValue

/-- One cached result of the memoized `Indicator.get`: a summary object and
the mapped instances. -/
abbrev CacheEntry := String × (JValue × List Indicator)

/-- Process state: the `memoize` cache of `Indicator.get` and the number of
HTTP requests issued so far. -/
structure St where
  cache : List CacheEntry
  requests : Nat

/-- `cache` lookup of `memoize` (`if key not in cache`). -/
def cacheLookup (cache : List CacheEntry) (key : String) :
    Option (JValue × List Indicator) :=
  (cache.find? (fun e => e.1 == key)).map (fun e => e.2)

/-- `summary, data = _request(...)`: unpacking the two-element response
envelope. -/
def unpack2 : JValue → Except PyErr (JValue × JValue)
  | .arr [a, b] => .ok (a, b)
  | _ => .error .valueError

/-- `for item in data`: the data part must be a JSON array. -/
def asList : JValue → Except PyErr (List JValue)
  | .arr items => .ok items
  | _ => .error .typeError

/-- `indicators[0]`. -/
def firstItem : List Indicator → Except PyErr Indicator
  | [] => .error .indexError
  | x :: _ => .ok x

/-- `Indicator.get` (api.py lines 284-304), wrapped by `memoize`: on a
cache hit the cached result is returned with no request; on a miss one
request is issued, the items are mapped and the result is cached.
Exceptions propagate without caching. -/
def Indicator.get (net : Net) (indicator : JValue)
    (kwargs : List (String × JValue)) (st : St) :
    Except PyErr ((JValue × List Indicator) × St) :=
  let key := memoKey indicator kwargs
  match cacheLookup st.cache key with
  | some result => .ok (result, st)
  | none => do
      let url := if indicator.truthy
        then domain ++ "/indicators/" ++ pyStr indicator
        else domain ++ "/indicators"
      let rr := _request net.server url kwargs st.requests
      let sd ← unpack2 rr.1
      let items ← asList sd.2
      let instances ← items.mapM Indicator.from_api
      return ((sd.1, instances), ⟨(key, (sd.1, instances)) :: st.cache, rr.2⟩)

/-- A `CountryIndicator.value`: either the raw JSON value `if value:` left
untouched (falsy values, in particular null) or the result of `float(...)`. -/
inductive CIValue where
  | raw (v : JValue)
  | flt (q : Rat)

/-- `CountryIndicator.country`: the raw country reference from the payload,
or the `Country` object the caller supplied, written over it afterwards. -/
inductive CountryRef where
  | raw (v : JValue)
  | resolved (c : Country)

/-- `CountryIndicator` (api.py lines 543-592).  `__slots__` declares eight
slots; a slot `__init__` never assigns is modelled as `Option.none`
(reading it raises AttributeError in Python). -/
structure CountryIndicator where
  indicator : Indicator
  country_iso3code : JValue
  country : CountryRef
  year : JValue
  value : CIValue
  decimal : JValue
  unit : Option JValue
  obs_status : Option JValue

/-- `CountryIndicator.__init__` (api.py lines 561-567): it accepts `unit`
and `obs_status` but its body never assigns those two slots. -/
def CountryIndicator.init (indicator : Indicator) (country_iso3code : JValue)
    (country : CountryRef) (year : JValue) (value : CIValue) (decimal : JValue)
    (_u : JValue) (_o : JValue) : CountryIndicator :=
  ⟨indicator, country_iso3code, country, year, value, decimal,
    Option.none, Option.none⟩

/-- `instance.country = country` in `CountryIndicator.get`. -/
def CountryIndicator.setCountry (inst : CountryIndicator) (c : Country) :
    CountryIndicator :=
  ⟨inst.indicator, inst.country_iso3code, .resolved c, inst.year, inst.value,
    inst.decimal, inst.unit, inst.obs_status⟩

/-- The `if value: value = float(value)` lines of
`CountryIndicator.from_api`: a falsy raw value (null, `0`, `""`, ...) is
kept as is, a truthy one goes through `float(...)`. -/
def mapValue (v : JValue) : Except PyErr CIValue :=
  if v.truthy then
    match pyFloat v with
    | .ok q => .ok (CIValue.flt q)
    | .error e => .error e
  else .ok (CIValue.raw v)

/-- `CountryIndicator.from_api` (api.py lines 575-592): it always calls the
memoized `Indicator.get` with the id embedded in the observation. -/
def CountryIndicator.from_api (net : Net) (data : JValue) (st : St) :
    Except PyErr (CountryIndicator × St) := do
  let country ← data.getItem "country"
  let indicator_data ← data.getItem "indicator"
  let iid ← indicator_data.getItem "id"
  let res ← Indicator.get net iid [] st
  let indicator ← firstItem res.1.2
  let year ← data.getItem "date"
  let value0 ← data.getItem "value"
  let value ← mapValue value0
  let decimal ← data.getItem "decimal"
  let unit ← data.getItem "unit"
  let obs_status ← data.getItem "obs_status"
  let country_iso3code ← data.getItem "countryiso3code"
  return (CountryIndicator.init indicator country_iso3code (.raw country) year
    value decimal unit obs_status, res.2)

/-- The list comprehension of `CountryIndicator.get`, threading the cache
and request count through `from_api`. -/
def mapCI (net : Net) : List JValue → St → Except PyErr (List CountryIndicator × St)
  | [], st => .ok ([], st)
  | d :: ds, st => do
      let pr ← CountryIndicator.from_api net d st
      let rest ← mapCI net ds pr.2
      return (pr.1 :: rest.1, rest.2)

/-- The `start`/`end`/`date` handling of `CountryIndicator.get` (api.py
lines 608-612): pop `start` and `end`; when both are truthy and `date` is
not, set the key `"<start>:<end>"` to `None`. -/
def countryIndicatorParams (kwargs : List (String × JValue)) :
    List (String × JValue) :=
  let start := (jLookup kwargs "start").getD .null
  let stop := (jLookup kwargs "end").getD .null
  let kwargs2 := popKey (popKey kwargs "start") "end"
  let date := (jLookup kwargs2 "date").getD .null
  if start.truthy && stop.truthy && !date.truthy then
    pySetdefault kwargs2 (pyStr start ++ ":" ++ pyStr stop) .null
  else kwargs2

/-- `CountryIndicator.get` (api.py lines 594-625). -/
def CountryIndicator.get (net : Net) (indicator : Indicator)
    (country : Option Country) (kwargs : List (String × JValue)) (st : St) :
    Except PyErr ((JValue × List CountryIndicator) × St) := do
  let params := countryIndicatorParams kwargs
  let iso_code := match country with
    | some c => pyStr c.iso_code
    | none => "all"
  let url := domain ++ "/countries/" ++ iso_code ++ "/indicators/" ++
    pyStr indicator.id
  let rr := _request net.server url params st.requests
  let sd ← unpack2 rr.1
  let items ← asList sd.2
  let mres ← mapCI net items ⟨st.cache, rr.2⟩
  let instances := match country with
    | some c => mres.1.map (fun inst => inst.setCountry c)
    | none => mres.1
  return ((sd.1, instances), mres.2)

/-- A paging summary object, as the API returns in the envelope. -/
def summary0 : JValue := .obj [("page", .int 1)]

/-- A minimal well-formed indicator payload, as `/indicators/IND` returns it. -/
def indPayload0 : JValue := .obj [("id", .str "IND"), ("name", .str "GDP"),
  ("source", .obj [("id", .str "2"), ("value", .str "WDI")]),
  ("sourceOrganization", .str "WB"), ("unit", .null)]

/-- The record `Indicator.from_api` builds from `indPayload0`. -/
def ind0 : Indicator := ⟨.str "IND", "GDP",
  ⟨.str "2", .null, "WDI", .null, .null, .null, .null, .null⟩,
  [], .null, "WB", .null⟩

/-- The raw country reference embedded in an observation. -/
def countryRef0 : JValue := .obj [("id", .str "US"), ("value", .str "United States")]

/-- An observation whose raw `value` is JSON null. -/
def obsNull0 : JValue := .obj [("country", countryRef0),
  ("indicator", .obj [("id", .str "IND")]), ("date", .str "2020"),
  ("value", .null), ("decimal", .int 1), ("unit", .null), ("obs_status", .null),
  ("countryiso3code", .str "USA")]

/-- An observation whose raw `value` is the empty string. -/
def obsEmptyStr0 : JValue := .obj [("country", countryRef0),
  ("indicator", .obj [("id", .str "IND")]), ("date", .str "2020"),
  ("value", .str ""), ("decimal", .int 1), ("unit", .null), ("obs_status", .null),
  ("countryiso3code", .str "USA")]

/-- An observation carrying non-null `unit` and `obs_status`. -/
def obsUnit0 : JValue := .obj [("country", countryRef0),
  ("indicator", .obj [("id", .str "IND")]), ("date", .str "2020"),
  ("value", .null), ("decimal", .int 1), ("unit", .str "USD"),
  ("obs_status", .str "E"), ("countryiso3code", .str "USA")]

/-- A fixed server: the two URLs the scenarios touch, null elsewhere. -/
def net0 : Net := ⟨fun u =>
  if u == "https://api.worldbank.org/v2/indicators/IND?format=json" then
    .arr [summary0, .arr [indPayload0]]
  else if u == "https://api.worldbank.org/v2/countries/all/indicators/IND?format=json" then
    .arr [summary0, .arr [obsNull0]]
  else .null⟩

/-- The record `CountryIndicator.from_api` builds from `obsNull0`. -/
def ciNull0 : CountryIndicator := ⟨ind0, .str "USA", .raw countryRef0,
  .str "2020", CIValue.raw .null, .int 1, Option.none, Option.none⟩

/-- The process state after one fresh `Indicator.get` for id `IND`. -/
def stAfter0 : St := ⟨[(memoKey (.str "IND") [], (summary0, [ind0]))], 1⟩

/-- A full country payload whose `incomeLevel` is JSON null. -/
def arubaNoIncome : JValue := .obj [("id", .str "ABW"), ("name", .str "Aruba"),
  ("iso2Code", .str "AW"),
  ("region", .obj [("id", .str "LCN"), ("iso2code", .str "ZJ"),
    ("value", .str "Latin America")]),
  ("adminregion", .obj [("id", .str "LAC"), ("iso2code", .str "XJ"),
    ("value", .str "Latin America developing")]),
  ("incomeLevel", .null),
  ("lendingType", .obj [("id", .str "LNX"), ("iso2code", .str "XX"),
    ("value", .str "Not classified")]),
  ("capitalCity", .str "Oranjestad"), ("latitude", .str "12.5"),
  ("longitude", .str "-70.0")]

/-- An indicator payload whose topics list holds an empty placeholder
object followed by a complete topic, as in the specification's example. -/
def indTopics0 : JValue := .obj [("id", .str "IND"), ("name", .str "GDP"),
  ("source", .obj [("id", .str "2"), ("value", .str "WDI")]),
  ("sourceOrganization", .str "WB"), ("unit", .null),
  ("topics", .arr [.obj [], .obj [("id", .str "3"), ("value", .str "Health")]])]

/-- The record `Indicator.from_api` builds from `indTopics0`. -/
def indTopicsRec0 : Indicator := ⟨.str "IND", "GDP",
  ⟨.str "2", .null, "WDI", .null, .null, .null, .null, .null⟩,
  [⟨.str "3", .str "Health", .null⟩], .null, "WB", .null⟩

/-- One payload carrying every field all seven entity mappers read. -/
def mega0 : JValue := .obj [
  ("id", .str "7"), ("code", .str "CC"), ("value", .str "Val"),
  ("name", .str "Nm"), ("description", .str "Desc"), ("url", .str "U"),
  ("concepts", .int 3), ("dataavailability", .str "Y"),
  ("metadataavailability", .str "Y"),
  ("iso2code", .str "XY"), ("sourceNote", .str "SN"),
  ("sourceOrganization", .str "SO"),
  ("unit", .null), ("source", .obj [("id", .str "2"), ("value", .str "WDI")]),
  ("topics", .arr []), ("iso2Code", .str "XX"),
  ("region", .obj [("id", .str "R"), ("iso2code", .str "RR"), ("value", .str "Reg")]),
  ("adminregion", .obj [("id", .str "A"), ("iso2code", .str "AA"),
    ("value", .str "Adm")]),
  ("incomeLevel", .obj [("id", .str "HIC"), ("iso2code", .str "XD"),
    ("value", .str "High")]),
  ("lendingType", .obj [("id", .str "LX"), ("iso2code", .str "XL"),
    ("value", .str "NC")]),
  ("capitalCity", .str "Cap"), ("latitude", .str "1.5"), ("longitude", .str "2.5"),
  ("metatype", .arr [])]

def srcMega : Source := ⟨.str "7", .str "CC", "Val", .str "Desc", .str "U",
  .int 3, .str "Y", .str "Y"⟩

def ilMega : IncomeLevel := ⟨.str "7", .str "Val", .str "XY"⟩

def ltMega : LendingType := ⟨.str "7", .str "Val", .str "XY"⟩

def indMega : Indicator := ⟨.str "7", "Nm",
  ⟨.str "2", .null, "WDI", .null, .null, .null, .null, .null⟩,
  [], .str "SN", "SO", .null⟩

def countryMega : Country := ⟨.str "7", .str "Nm", .str "XX",
  ⟨.str "R", .str "RR", .str "Reg"⟩, ⟨.str "A", .str "AA", .str "Adm"⟩,
  ⟨.str "HIC", .str "High", .str "XD"⟩, ⟨.str "LX", .str "NC", .str "XL"⟩,
  ⟨.str "Cap", .str "1.5", .str "2.5"⟩⟩

def topicMega : Topic := ⟨.str "7", .str "Val", .str "SN"⟩

def catMega : Catalog := ⟨.str "7", .arr []⟩

example : Indicator.from_api indPayload0 = .ok ind0 := rfl

example : Except.map (fun p => p.1) (CountryIndicator.from_api net0 obsNull0 ⟨[], 0⟩) =
    .ok ciNull0 := rfl

example : CountryIndicator.from_api net0 obsNull0 ⟨[], 0⟩ = .ok (ciNull0, stAfter0) := rfl

example : Country.from_api arubaNoIncome = .error PyErr.typeError := rfl

example : Indicator.from_api indTopics0 = .ok indTopicsRec0 := rfl

example : Source.from_api mega0 = .ok srcMega := rfl
example : IncomeLevel.from_api mega0 = .ok ilMega := rfl
example : LendingType.from_api mega0 = .ok ltMega := rfl
example : Indicator.from_api mega0 = .ok indMega := rfl
example : Country.from_api mega0 = .ok countryMega := rfl
example : Topic.from_api mega0 = .ok topicMega := rfl
example : Catalog.from_api mega0 = .ok catMega := rfl

example : Indicator.get net0 (.str "IND") [] ⟨[], 0⟩ =
    .ok ((summary0, [ind0]), stAfter0) := rfl

example : Except.map (fun p => p.2.requests)
    (CountryIndicator.get net0 ind0 none [] ⟨[], 0⟩) = .ok 2 := rfl

example : IncomeLevel.from_api (.obj [("id", .str "1")]) =
    .error (.keyError "value") := rfl

example : Except.map (fun p => p.1.value)
    (CountryIndicator.from_api net0 obsEmptyStr0 ⟨[], 0⟩) =
    .ok (CIValue.raw (.str "")) := rfl

example : requestQueryPairs [("format", .str "xml")] = [("format", "xml")] := rfl

example : requestQueryPairs (countryIndicatorParams
    [("start", .int 2010), ("end", .int 2015)]) =
    [("2010%3A2015", "None"), ("format", "json")] := rfl

/-- Inverting one `bind` of a successful `Except` computation. -/
theorem bind_ok {α β : Type} {x : Except PyErr α} {f : α → Except PyErr β} {b : β}
    (h : x >>= f = .ok b) : ∃ a, x = .ok a ∧ f a = .ok b := by
  cases x with
  | error e => simp [Bind.bind, Except.bind] at h
  | ok a => exact ⟨a, rfl, h⟩

theorem ok_inj {α : Type} {a b : α}
    (h : (Except.ok a : Except PyErr α) = .ok b) : a = b := by
  injection h

/-- `data['id']` on a dict without an `id` key raises `KeyError('id')`. -/
theorem getItem_obj_of_none {fs : List (String × JValue)} {k : String}
    (h : jLookup fs k = none) :
    JValue.getItem (.obj fs) k = .error (.keyError k) := by
  simp [JValue.getItem, h]

/-- Claim C1 (amended): every one of the seven entity mappers fails with
`KeyError('id')` whenever the payload dict has no `id` key — `data['id']`
is each mapper's first access.  (The other half of the original claim,
that a payload containing `id` never fails, is false: see the
counterexample.) -/
theorem C1_amended_id_required (fs : List (String × JValue))
    (h : jLookup fs "id" = none) :
    Source.from_api (.obj fs) = .error (.keyError "id") ∧
    IncomeLevel.from_api (.obj fs) = .error (.keyError "id") ∧
    LendingType.from_api (.obj fs) = .error (.keyError "id") ∧
    Indicator.from_api (.obj fs) = .error (.keyError "id") ∧
    Country.from_api (.obj fs) = .error (.keyError "id") ∧
    Topic.from_api (.obj fs) = .error (.keyError "id") ∧
    Catalog.from_api (.obj fs) = .error (.keyError "id") := by
  refine ⟨?_, ?_, ?_, ?_, ?_, ?_, ?_⟩ <;>
    simp [Source.from_api, IncomeLevel.from_api, LendingType.from_api,
      Indicator.from_api, Country.from_api, Topic.from_api, Catalog.from_api,
      getItem_obj_of_none h, Bind.bind, Except.bind]

/-- Claim C1, the original statement refuted: `IncomeLevel.from_api` on a
payload that does contain `id` still raises, because `value` is read with
plain subscripting. -/
theorem C1_counterexample :
    IncomeLevel.from_api (.obj [("id", .str "1")]) = .error (.keyError "value") := rfl

theorem C1_witness :
    jLookup [] "id" = none ∧
    (Source.from_api (.obj []) = .error (.keyError "id") ∧
     IncomeLevel.from_api (.obj []) = .error (.keyError "id") ∧
     LendingType.from_api (.obj []) = .error (.keyError "id") ∧
     Indicator.from_api (.obj []) = .error (.keyError "id") ∧
     Country.from_api (.obj []) = .error (.keyError "id") ∧
     Topic.from_api (.obj []) = .error (.keyError "id") ∧
     Catalog.from_api (.obj []) = .error (.keyError "id")) :=
  ⟨rfl, C1_amended_id_required [] rfl⟩

/-- Claim C2: the code evaluated at a country payload whose `incomeLevel`
is JSON null.  `Country.from_api` raises TypeError (Python subscripts the
`None` sub-payload) instead of producing a record with a null
`income_level`, contradicting the specification's stated invariant. -/
theorem C2_code_evaluation :
    Country.from_api arubaNoIncome = .error PyErr.typeError := rfl

/-- Claim C3, the original statement refuted: when the caller supplies
`format=xml`, `parameters.setdefault('format', 'json')` keeps the caller's
value, so the emitted query carries `format=xml` and not `format=json`. -/
theorem C3_counterexample :
    requestQueryPairs [("format", .str "xml")] = [("format", "xml")] ∧
    ("format", "json") ∉ requestQueryPairs [("format", .str "xml")] := by
  exact ⟨rfl, by decide⟩

/-- Claim C3 (amended): the query of `_request` carries `format=json`
whenever the caller did not supply a `format` key; a caller-supplied
`format` pair is preserved verbatim (every caller pair survives the
defaulting), not superseded. -/
theorem C3_amended_format_json (ps : List (String × JValue)) :
    ((ps.find? (fun p => p.1 == "format")).isNone →
      ("format", "json") ∈ requestQueryPairs ps) ∧
    (∀ p ∈ ps, encodePair p ∈ requestQueryPairs ps) := by
  constructor
  · intro h
    have hd : requestParameters ps = ps ++ [("format", JValue.str "json")] := by
      simp only [requestParameters, pySetdefault]
      rw [if_neg]
      simp [Option.isNone_iff_eq_none.mp h]
    simp only [requestQueryPairs, hd, List.map_append, List.mem_append,
      List.map_cons, List.map_nil, List.mem_singleton]
    right
    decide
  · intro p hp
    simp only [requestQueryPairs, requestParameters, pySetdefault]
    by_cases hf : (ps.find? (fun q => q.1 == "format")).isSome
    · rw [if_pos hf]
      exact List.mem_map_of_mem _ hp
    · rw [if_neg hf]
      exact List.mem_map_of_mem _ (List.mem_append_left _ hp)

theorem C3_witness :
    (([("page", JValue.int 2)].find? (fun p => p.1 == "format")).isNone = true ∧
      ("format", "json") ∈ requestQueryPairs [("page", JValue.int 2)]) ∧
    ("format", "xml") ∈ requestQueryPairs [("format", JValue.str "xml")] := by
  refine ⟨⟨rfl, (C3_amended_format_json [("page", JValue.int 2)]).1 rfl⟩, ?_⟩
  have h := (C3_amended_format_json [("format", JValue.str "xml")]).2
    ("format", JValue.str "xml") (by simp)
  have he : encodePair ("format", JValue.str "xml") = ("format", "xml") := rfl
  rw [he] at h
  exact h

/-- Claim C9: the code evaluated at an observation carrying `unit="USD"`
and `obs_status="E"`.  The mapping succeeds, but the record's `unit` and
`obs_status` slots are unassigned (Python's `__init__` accepts both
parameters and never stores them), so the record does not carry all eight
fields. -/
theorem C9_code_evaluation :
    Except.map (fun p => (p.1.unit, p.1.obs_status))
      (CountryIndicator.from_api net0 obsUnit0 ⟨[], 0⟩) =
    .ok (Option.none, Option.none) := rfl

/-- A string with a `:` in the middle is never the key `format`. -/
theorem colon_ne_format (a b : String) : a ++ ":" ++ b ≠ "format" := by
  intro h
  have h2 : (':' : Char) ∈ (a ++ ":" ++ b).data := by
    show (':' : Char) ∈ (a.data ++ [':']) ++ b.data
    simp
  rw [h] at h2
  exact absurd h2 (by decide)

/-- Claim C6, the original statement refuted: for `start=2010, end=2015`
with no `date`, no parameter of the emitted query has the key exactly
`2010:2015` — the query is `2010%3A2015=None&format=json`, with the colon
percent-encoded and the Python `None` value stringified. -/
theorem C6_counterexample :
    requestQueryPairs (countryIndicatorParams
      [("start", .int 2010), ("end", .int 2015)]) =
      [("2010%3A2015", "None"), ("format", "json")] ∧
    ((requestQueryPairs (countryIndicatorParams
      [("start", .int 2010), ("end", .int 2015)])).any
      (fun p => p.1 == "2010:2015")) = false :=
  ⟨rfl, rfl⟩

/-- Claim C6 (amended): with truthy integer `start` and `end` and no
`date`, `CountryIndicator.get` synthesizes the single parameter whose dict
key is `"<start>:<end>"` mapped to Python `None`; `urlencode` then emits it
percent-encoded (`:` becomes `%3A`) with the value `"None"` (the
stringified `None`), so the wire parameter is neither literally
`"<start>:<end>"` nor valueless. -/
theorem C6_amended_range_key (s e : Int) (hs : s ≠ 0) (he : e ≠ 0) :
    countryIndicatorParams [("start", .int s), ("end", .int e)] =
      [(toString s ++ ":" ++ toString e, JValue.null)] ∧
    requestQueryPairs (countryIndicatorParams
      [("start", .int s), ("end", .int e)]) =
      [(quote_plus (toString s ++ ":" ++ toString e), "None"), ("format", "json")] := by
  have h1 : countryIndicatorParams [("start", .int s), ("end", .int e)] =
      [(toString s ++ ":" ++ toString e, JValue.null)] := by
    simp [countryIndicatorParams, jLookup, popKey, JValue.truthy, hs, he,
      pySetdefault, pyStr]
  refine ⟨h1, ?_⟩
  rw [h1]
  simp only [requestQueryPairs, requestParameters, pySetdefault]
  rw [if_neg]
  · simp [encodePair, pyStr]
    exact ⟨by decide, by decide, by decide⟩
  · simp [List.find?, beq_eq_false_iff_ne.mpr (colon_ne_format (toString s) (toString e))]

theorem C6_witness :
    (2010 : Int) ≠ 0 ∧ (2015 : Int) ≠ 0 ∧
    countryIndicatorParams [("start", .int 2010), ("end", .int 2015)] =
      [("2010:2015", JValue.null)] ∧
    requestQueryPairs (countryIndicatorParams
      [("start", .int 2010), ("end", .int 2015)]) =
      [("2010%3A2015", "None"), ("format", "json")] := by
  have h := C6_amended_range_key 2010 2015 (by decide) (by decide)
  exact ⟨by decide, by decide, h.1, h.2⟩

/-- Claim C5: with a cache miss, a successful `Indicator.get` issues
exactly one request, and calling it again with identical arguments returns
the same result from the cache with the state (and so the request count)
unchanged. -/
theorem C5_memoization (net : Net) (indicator : JValue)
    (kwargs : List (String × JValue)) (st : St)
    (res : JValue × List Indicator) (st1 : St)
    (hmiss : cacheLookup st.cache (memoKey indicator kwargs) = none)
    (hok : Indicator.get net indicator kwargs st = .ok (res, st1)) :
    st1.requests = st.requests + 1 ∧
    Indicator.get net indicator kwargs st1 = .ok (res, st1) := by
  simp only [Indicator.get, hmiss] at hok
  rcases bind_ok hok with ⟨sd, hsd, hok⟩
  rcases bind_ok hok with ⟨items, hitems, hok⟩
  rcases bind_ok hok with ⟨insts, hinsts, hok⟩
  have hpair := ok_inj hok
  rw [Prod.mk.injEq] at hpair
  obtain ⟨hA, hB⟩ := hpair
  subst hA
  subst hB
  constructor
  · rfl
  · simp only [Indicator.get, cacheLookup, List.find?, beq_self_eq_true]
    rfl

theorem C5_witness :
    cacheLookup (⟨[], 0⟩ : St).cache (memoKey (.str "IND") []) = none ∧
    stAfter0.requests = (⟨[], 0⟩ : St).requests + 1 ∧
    Indicator.get net0 (.str "IND") [] stAfter0 = .ok ((summary0, [ind0]), stAfter0) := by
  have h := C5_memoization net0 (.str "IND") [] ⟨[], 0⟩ (summary0, [ind0]) stAfter0 rfl rfl
  exact ⟨rfl, h.1, h.2⟩

/-- A successful `Indicator.get` leaves the request count unchanged on a
cache hit and increments it by one on a miss. -/
theorem indicator_get_requests (net : Net) (indicator : JValue)
    (kwargs : List (String × JValue)) (st : St)
    (res : JValue × List Indicator) (st1 : St)
    (h : Indicator.get net indicator kwargs st = .ok (res, st1)) :
    st1.requests = (if (cacheLookup st.cache (memoKey indicator kwargs)).isSome
      then st.requests else st.requests + 1) := by
  cases hc : cacheLookup st.cache (memoKey indicator kwargs) with
  | some r =>
      simp only [Indicator.get, hc] at h
      have hpair := ok_inj h
      rw [Prod.mk.injEq] at hpair
      rw [← hpair.2]
      simp [hc]
  | none =>
      simp only [Indicator.get, hc] at h
      rcases bind_ok h with ⟨sd, hsd, h⟩
      rcases bind_ok h with ⟨items, hitems, h⟩
      rcases bind_ok h with ⟨insts, hinsts, h⟩
      have hpair := ok_inj h
      rw [Prod.mk.injEq] at hpair
      rw [← hpair.2]
      simp [hc]
      rfl

/-- Claim C4 (amended): every successful `CountryIndicator.from_api`
resolves the indicator through `Indicator.get` with the id embedded in the
observation, regardless of any `Indicator` object the caller supplied to
`CountryIndicator.get`; a network request is saved only when that id's
lookup (with no options) is already memoized. -/
theorem C4_amended_always_resolves (net : Net) (st : St) (data : JValue)
    (rec : CountryIndicator) (st1 : St)
    (hok : CountryIndicator.from_api net data st = .ok (rec, st1)) :
    ∃ iid, (data.getItem "indicator" >>= fun d => d.getItem "id") = .ok iid ∧
      st1.requests = (if (cacheLookup st.cache (memoKey iid [])).isSome
        then st.requests else st.requests + 1) := by
  simp only [CountryIndicator.from_api] at hok
  rcases bind_ok hok with ⟨c, hc, hok⟩
  rcases bind_ok hok with ⟨idata, hidata, hok⟩
  rcases bind_ok hok with ⟨iid, hiid, hok⟩
  rcases bind_ok hok with ⟨r, hr, hok⟩
  rcases bind_ok hok with ⟨ind, hind, hok⟩
  rcases bind_ok hok with ⟨yr, hyr, hok⟩
  rcases bind_ok hok with ⟨v0, hv0, hok⟩
  rcases bind_ok hok with ⟨val, hval, hok⟩
  rcases bind_ok hok with ⟨dec, hdec, hok⟩
  rcases bind_ok hok with ⟨un, hun, hok⟩
  rcases bind_ok hok with ⟨ob, hob, hok⟩
  rcases bind_ok hok with ⟨c3, hc3, hok⟩
  have hpair := ok_inj hok
  rw [Prod.mk.injEq] at hpair
  refine ⟨iid, ?_, ?_⟩
  · rw [hidata]
    exact hiid
  · rw [← hpair.2]
    exact indicator_get_requests net iid [] st r.1 r.2 hr

/-- Claim C4, the original statement refuted: with an empty cache, fetching
one observation through `CountryIndicator.get` while supplying the concrete
`Indicator` object `ind0` still issues two requests — one for the data and
a second resolving the indicator id embedded in the observation. -/
theorem C4_counterexample :
    Except.map (fun p => p.2.requests)
      (CountryIndicator.get net0 ind0 none [] ⟨[], 0⟩) = .ok 2 := rfl

theorem C4_witness :
    ∃ iid, (obsNull0.getItem "indicator" >>= fun d => d.getItem "id") = .ok iid ∧
      stAfter0.requests = (if (cacheLookup (⟨[], 0⟩ : St).cache (memoKey iid [])).isSome
        then (⟨[], 0⟩ : St).requests else (⟨[], 0⟩ : St).requests + 1) :=
  C4_amended_always_resolves net0 ⟨[], 0⟩ obsNull0 ciNull0 stAfter0 rfl

/-- Claim C8 (amended): in every successful observation mapping, a falsy
raw `value` (JSON null in particular, but also `0` and `""`) is kept as the
raw value — null maps to null, never zero — while a truthy raw `value` is
parsed by `float(...)` (so that a truthy non-numeric string makes the
mapping fail).  The original claim's stronger parts — every present
non-null value is parsed to a float, every non-numeric string fails — are
refuted by the counterexample. -/
theorem C8_amended_value_mapping (net : Net) (st : St) (data : JValue)
    (rec : CountryIndicator) (st1 : St)
    (hok : CountryIndicator.from_api net data st = .ok (rec, st1)) :
    ∃ v, data.getItem "value" = .ok v ∧
      ((v.truthy = false ∧ rec.value = CIValue.raw v) ∨
       (v.truthy = true ∧ ∃ q, pyFloat v = .ok q ∧ rec.value = CIValue.flt q)) := by
  simp only [CountryIndicator.from_api] at hok
  rcases bind_ok hok with ⟨c, hc, hok⟩
  rcases bind_ok hok with ⟨idata, hidata, hok⟩
  rcases bind_ok hok with ⟨iid, hiid, hok⟩
  rcases bind_ok hok with ⟨r, hr, hok⟩
  rcases bind_ok hok with ⟨ind, hind, hok⟩
  rcases bind_ok hok with ⟨yr, hyr, hok⟩
  rcases bind_ok hok with ⟨v0, hv0, hok⟩
  rcases bind_ok hok with ⟨val, hval, hok⟩
  rcases bind_ok hok with ⟨dec, hdec, hok⟩
  rcases bind_ok hok with ⟨un, hun, hok⟩
  rcases bind_ok hok with ⟨ob, hob, hok⟩
  rcases bind_ok hok with ⟨c3, hc3, hok⟩
  have hpair := ok_inj hok
  rw [Prod.mk.injEq] at hpair
  have hrec : rec.value = val := by rw [← hpair.1]; rfl
  refine ⟨v0, hv0, ?_⟩
  by_cases ht : v0.truthy = true
  · right
    refine ⟨ht, ?_⟩
    simp only [mapValue, ht, if_true] at hval
    cases hf : pyFloat v0 with
    | ok q =>
        rw [hf] at hval
        exact ⟨q, rfl, by rw [hrec, ← ok_inj hval]⟩
    | error e =>
        rw [hf] at hval
        exact absurd hval (by simp)
  · left
    have ht2 : v0.truthy = false := by simpa using ht
    refine ⟨ht2, ?_⟩
    simp only [mapValue, ht2, Bool.false_eq_true, if_false] at hval
    rw [hrec, ← ok_inj hval]

/-- Claim C8, the original statement refuted: an observation whose raw
`value` is the empty string — present, non-null and non-numeric — maps
successfully (the empty string is falsy, so `float` is never applied), and
the mapped value is the raw `""`, not a float and not a failure. -/
theorem C8_counterexample :
    Except.map (fun p => p.1.value)
      (CountryIndicator.from_api net0 obsEmptyStr0 ⟨[], 0⟩) =
    .ok (CIValue.raw (.str "")) := rfl

theorem C8_witness :
    ∃ v, obsNull0.getItem "value" = .ok v ∧
      ((v.truthy = false ∧ ciNull0.value = CIValue.raw v) ∨
       (v.truthy = true ∧ ∃ q, pyFloat v = .ok q ∧ ciNull0.value = CIValue.flt q)) :=
  C8_amended_value_mapping net0 ⟨[], 0⟩ obsNull0 ciNull0 stAfter0 rfl

theorem isObj_iff (t : JValue) : isObj t = true ↔ ∃ fs, t = .obj fs := by
  cases t <;> simp [isObj]

/-- The topics loop is the filter of the elements carrying an `id`, mapped
in order through `Topic.from_api`. -/
theorem mapTopics_filter (ts : List JValue) (l : List Topic)
    (h : mapTopics ts = .ok l) (hobj : ∀ t ∈ ts, isObj t = true) :
    (ts.filter hasId).mapM Topic.from_api = .ok l := by
  induction ts generalizing l with
  | nil =>
      have he := ok_inj h
      subst he
      rfl
  | cons t rest ih =>
      obtain ⟨fields, rfl⟩ := (isObj_iff t).mp (hobj t (by simp))
      have hrests : ∀ x ∈ rest, isObj x = true := fun x hx => hobj x (by simp [hx])
      by_cases hid : (jLookup fields "id").isSome = true
      · simp only [mapTopics, hid, if_true] at h
        rcases bind_ok h with ⟨tp, htp, h⟩
        rcases bind_ok h with ⟨tps, htps, h⟩
        have hl := ok_inj h
        rw [List.filter_cons_of_pos (by simpa [hasId] using hid),
          List.mapM_cons, htp, ih tps htps hrests, ← hl]
        rfl
      · simp only [mapTopics, hid, Bool.false_eq_true, if_false] at h
        rw [List.filter_cons_of_neg (by simpa [hasId] using hid)]
        exact ih l h hrests

/-- Claim C7: whenever `Indicator.from_api` succeeds and the raw `topics`
payload is the list `ts` of objects, the record's topics are exactly the
elements of `ts` that contain an `id` key, mapped in order through
`Topic.from_api` — the others are silently skipped. -/
theorem C7_topics_filter (data : JValue) (rec : Indicator) (ts : List JValue)
    (hok : Indicator.from_api data = .ok rec)
    (hts : data.getD "topics" (.arr []) = .ok (.arr ts))
    (hobj : ∀ t ∈ ts, isObj t = true) :
    (ts.filter hasId).mapM Topic.from_api = .ok rec.topics := by
  simp only [Indicator.from_api] at hok
  rcases bind_ok hok with ⟨i1, h1, hok⟩
  rcases bind_ok hok with ⟨rn, h2, hok⟩
  rcases bind_ok hok with ⟨nm, h3, hok⟩
  rcases bind_ok hok with ⟨sdta, h4, hok⟩
  rcases bind_ok hok with ⟨td, h5, hok⟩
  rcases bind_ok hok with ⟨sn, h6, hok⟩
  rcases bind_ok hok with ⟨ro, h7, hok⟩
  rcases bind_ok hok with ⟨so, h8, hok⟩
  rcases bind_ok hok with ⟨un, h9, hok⟩
  rcases bind_ok hok with ⟨src, h10, hok⟩
  rcases bind_ok hok with ⟨tps, h11, hok⟩
  have hpair := ok_inj hok
  rw [h5] at hts
  have htd := ok_inj hts
  subst htd
  have h12 : mapTopics ts = .ok tps := h11
  rw [mapTopics_filter ts tps h12 hobj, ← hpair]

theorem C7_witness :
    Indicator.from_api indTopics0 = .ok indTopicsRec0 ∧
    (([JValue.obj [], JValue.obj [("id", JValue.str "3"),
        ("value", JValue.str "Health")]].filter hasId).mapM Topic.from_api =
      .ok indTopicsRec0.topics) ∧
    indTopicsRec0.topics = [⟨.str "3", .str "Health", .null⟩] :=
  ⟨rfl, C7_topics_filter indTopics0 indTopicsRec0
    [JValue.obj [], JValue.obj [("id", JValue.str "3"), ("value", JValue.str "Health")]]
    rfl rfl (by decide), rfl⟩

/-- Claim C10: whenever any of the seven entity mappers succeeds, the
record's `id` field is exactly the payload's `id` value. -/
theorem C10_id_roundtrip (data : JValue) :
    (∀ rec, Source.from_api data = .ok rec → ∃ v, data.getItem "id" = .ok v ∧ rec.id = v) ∧
    (∀ rec, IncomeLevel.from_api data = .ok rec → ∃ v, data.getItem "id" = .ok v ∧ rec.id = v) ∧
    (∀ rec, LendingType.from_api data = .ok rec → ∃ v, data.getItem "id" = .ok v ∧ rec.id = v) ∧
    (∀ rec, Indicator.from_api data = .ok rec → ∃ v, data.getItem "id" = .ok v ∧ rec.id = v) ∧
    (∀ rec, Country.from_api data = .ok rec → ∃ v, data.getItem "id" = .ok v ∧ rec.id = v) ∧
    (∀ rec, Topic.from_api data = .ok rec → ∃ v, data.getItem "id" = .ok v ∧ rec.id = v) ∧
    (∀ rec, Catalog.from_api data = .ok rec → ∃ v, data.getItem "id" = .ok v ∧ rec.id = v) := by
  refine ⟨?_, ?_, ?_, ?_, ?_, ?_, ?_⟩
  all_goals
    intro rec h
    simp only [Source.from_api, IncomeLevel.from_api, LendingType.from_api,
      Indicator.from_api, Country.from_api, Topic.from_api, Catalog.from_api] at h
    rcases bind_ok h with ⟨v, hv, h⟩
    repeat rcases bind_ok h with ⟨_, _, h⟩
    exact ⟨v, hv, by rw [← ok_inj h]⟩

theorem C10_witness :
    (∃ v, mega0.getItem "id" = .ok v ∧ srcMega.id = v) ∧
    (∃ v, mega0.getItem "id" = .ok v ∧ ilMega.id = v) ∧
    (∃ v, mega0.getItem "id" = .ok v ∧ ltMega.id = v) ∧
    (∃ v, mega0.getItem "id" = .ok v ∧ indMega.id = v) ∧
    (∃ v, mega0.getItem "id" = .ok v ∧ countryMega.id = v) ∧
    (∃ v, mega0.getItem "id" = .ok v ∧ topicMega.id = v) ∧
    (∃ v, mega0.getItem "id" = .ok v ∧ catMega.id = v) :=
  ⟨(C10_id_roundtrip mega0).1 srcMega rfl,
   (C10_id_roundtrip mega0).2.1 ilMega rfl,
   (C10_id_roundtrip mega0).2.2.1 ltMega rfl,
   (C10_id_roundtrip mega0).2.2.2.1 indMega rfl,
   (C10_id_roundtrip mega0).2.2.2.2.1 countryMega rfl,
   (C10_id_roundtrip mega0).2.2.2.2.2.1 topicMega rfl,
   (C10_id_roundtrip mega0).2.2.2.2.2.2 catMega rfl⟩

end WorldBank
